import Mathlib

/-!
Verification of the firewalld D-Bus server front end
(src/firewall/server/firewalld.py) against its specification.

The embedding models the FirewallD class: each D-Bus entry point becomes a
Lean function transforming an explicit state.  Collaborators that live
outside the given source file (the Firewall core object fw.zone / fw.direct /
fw.policies, GLib timeout sources, the persistent-configuration store) are
modelled from the specification and are marked as such in their doc comments.
-/

deriving instance DecidableEq for Except

namespace Firewalld

/-- Argument vector of a direct passthrough, as a list of strings. -/
abbrev Args := List String

/-- Keys of the _timeouts table: element-specific tuples, as used by
addService (the service name), addPort (the pair (port, protocol)) and
addRichRule (the rule text). -/
inductive PKey where
  | service (s : String)
  | portProto (port protocol : String)
  | rich (rule : String)
  deriving DecidableEq, Repr

/-- Callbacks that GLib timeout sources can carry: the disableTimed*
methods bound to their arguments at arming time. -/
inductive TimerCb where
  | timedService (zone service : String)
  | timedPort (zone port protocol : String)
  | timedRichRule (zone rule : String)
  deriving DecidableEq, Repr

/-- Signals emitted over the bus, with their payloads. -/
inductive Signal where
  | serviceAdded (zone service : String) (timeout : Int)
  | serviceRemoved (zone service : String)
  | portAdded (zone port protocol : String) (timeout : Int)
  | portRemoved (zone port protocol : String)
  | richRuleAdded (zone rule : String) (timeout : Int)
  | richRuleRemoved (zone rule : String)
  | passthroughAdded (ipv : String) (args : Args)
  | passthroughRemoved (ipv : String) (args : Args)
  | reloaded
  deriving DecidableEq, Repr

/-- Error kinds from firewall.errors used by the modelled entry points.
pythonKeyError stands for a raw Python KeyError escaping a del statement. -/
inductive FwErrKind where
  | ACCESS_DENIED
  | ALREADY_ENABLED
  | NOT_ENABLED
  | INVALID_ZONE
  | RT_TO_PERM_FAILED
  | pythonKeyError
  deriving DecidableEq, Repr

/-- Typed error crossing the bus: an error kind plus a message. -/
structure FwError where
  kind : FwErrKind
  msg : String
  deriving DecidableEq, Repr

/-- Resolved attributes of a bus caller, as obtained by context_of_sender,
uid_of_sender, user_of_uid and command_of_sender in the source. -/
structure CallerInfo where
  context : String
  uid : Nat
  user : String
  command : String
  deriving DecidableEq, Repr

/-- Modelled from the spec: the LockdownWhitelist of fw.policies, four
independent sets (commands, uids, users, contexts); fw.policies.access_check
tests membership of one attribute in the corresponding set. -/
structure LockdownWhitelist where
  contexts : List String
  uids : List Nat
  users : List String
  commands : List String
  deriving DecidableEq, Repr

/-- Which caller attribute a whitelist lookup resolved; accessCheck resolves
them lazily, so the sequence of lookups performed is observable. -/
inductive Lookup where
  | context
  | uid
  | user
  | command
  deriving DecidableEq, Repr

/-- Transcribed from FirewallD.accessCheck (firewalld.py lines 89 to 108):
when lockdown is disabled, or the sender is not set, return normally
without consulting the whitelist; otherwise resolve and test the caller
context, uid, user and command in that order, returning at the first match,
and raise ACCESS_DENIED with message "lockdown is enabled" when none match.
The first component records which caller attributes were resolved. -/
def accessCheck (lockdown : Bool) (wl : LockdownWhitelist)
    (sender : Option CallerInfo) : List Lookup × Except FwError Unit :=
  if lockdown then
    match sender with
    | none => ([], .ok ())
    | some c =>
      if c.context ∈ wl.contexts then ([.context], .ok ())
      else if c.uid ∈ wl.uids then ([.context, .uid], .ok ())
      else if c.user ∈ wl.users then ([.context, .uid, .user], .ok ())
      else if c.command ∈ wl.commands then
        ([.context, .uid, .user, .command], .ok ())
      else
        ([.context, .uid, .user, .command],
         .error ⟨.ACCESS_DENIED, "lockdown is enabled"⟩)
  else ([], .ok ())

/-- Modelled from the spec: the persistent on-disk configuration, an opaque
store keyed by name, read by Firewall.reload to rebuild runtime state. -/
structure PermConfig where
  zones : List String
  services : List (String × String)
  ports : List (String × String × String)
  richRules : List (String × String)
  deriving DecidableEq, Repr

/-- Modelled from the spec: a live GLib timeout source, carrying the tag
returned by GLib.timeout_add_seconds, its absolute deadline and the bound
disableTimed* callback. -/
structure GSource where
  tag : Nat
  deadline : Nat
  cb : TimerCb
  deriving DecidableEq, Repr

/-- State of the FirewallD object together with the Firewall core (fw) it
owns: the runtime model sets, lockdown policy, the _timeouts table of the
FirewallD class, the live GLib sources, a fresh-tag counter, the current
time and the log of emitted signals. -/
structure FwState where
  defaultZone : String
  zones : List String
  services : List (String × String)
  ports : List (String × String × String)
  richRules : List (String × String)
  passthroughs : List (String × Args)
  lockdown : Bool
  whitelist : LockdownWhitelist
  perm : PermConfig
  timeouts : List ((String × PKey) × Nat)
  sources : List GSource
  nextTag : Nat
  now : Nat
  signals : List Signal
  deriving DecidableEq, Repr

/-- Record a signal emission. -/
def emit (st : FwState) (sig : Signal) : FwState :=
  { st with signals := st.signals ++ [sig] }

/-- accessCheck of the FirewallD object, reading lockdown state and
whitelist from the Firewall core; only the result matters here. -/
def accessCheckE (st : FwState) (sender : Option CallerInfo) :
    Except FwError Unit :=
  (accessCheck st.lockdown st.whitelist sender).2

/-- Lookup in the _timeouts table (a Python dict of dicts, modelled as an
association list keyed by the pair of zone and entry key). -/
def lookupAssoc (l : List ((String × PKey) × Nat)) (key : String × PKey) :
    Option Nat :=
  (l.find? (fun e => decide (e.1 = key))).map (fun e => e.2)

/-- Dict update self._timeouts[zone][x] = tag: overwrite in place when the
key is present, append otherwise. -/
def setAssoc (l : List ((String × PKey) × Nat)) (key : String × PKey)
    (tag : Nat) : List ((String × PKey) × Nat) :=
  if l.any (fun e => decide (e.1 = key)) then
    l.map (fun e => if e.1 = key then (key, tag) else e)
  else l ++ [(key, tag)]

/-- Modelled from the spec: empty zone name in any operation means the
default zone; resolution happens at the entry point into the Firewall core. -/
def resolveZone (st : FwState) (zone : String) : String :=
  if zone = "" then st.defaultZone else zone

/-- Modelled from the spec: fw.zone.add_service — validate first (zone must
exist, entry must not already be present, else ALREADY_ENABLED), then add
the entry with set semantics and return the resolved zone name. -/
def FwZone.add_service (st : FwState) (zone service : String) :
    Except FwError (String × FwState) :=
  let z := resolveZone st zone
  if z ∈ st.zones then
    if (z, service) ∈ st.services then .error ⟨.ALREADY_ENABLED, service⟩
    else .ok (z, { st with services := st.services ++ [(z, service)] })
  else .error ⟨.INVALID_ZONE, z⟩

/-- Modelled from the spec: fw.zone.remove_service — NOT_ENABLED when the
entry is absent, otherwise remove it and return the resolved zone name. -/
def FwZone.remove_service (st : FwState) (zone service : String) :
    Except FwError (String × FwState) :=
  let z := resolveZone st zone
  if z ∈ st.zones then
    if (z, service) ∈ st.services then
      .ok (z, { st with
                services := st.services.filter
                  (fun e => decide (e ≠ (z, service))) })
    else .error ⟨.NOT_ENABLED, service⟩
  else .error ⟨.INVALID_ZONE, z⟩

/-- Modelled from the spec: fw.zone.query_service — membership test,
false when the zone is unknown. -/
def FwZone.query_service (st : FwState) (zone service : String) : Bool :=
  decide ((resolveZone st zone, service) ∈ st.services)

/-- Modelled from the spec: fw.zone.add_port, as add_service but on the
pair of port and protocol. -/
def FwZone.add_port (st : FwState) (zone port protocol : String) :
    Except FwError (String × FwState) :=
  let z := resolveZone st zone
  if z ∈ st.zones then
    if (z, port, protocol) ∈ st.ports then .error ⟨.ALREADY_ENABLED, port⟩
    else .ok (z, { st with ports := st.ports ++ [(z, port, protocol)] })
  else .error ⟨.INVALID_ZONE, z⟩

/-- Modelled from the spec: fw.zone.remove_port. -/
def FwZone.remove_port (st : FwState) (zone port protocol : String) :
    Except FwError (String × FwState) :=
  let z := resolveZone st zone
  if z ∈ st.zones then
    if (z, port, protocol) ∈ st.ports then
      .ok (z, { st with
                ports := st.ports.filter
                  (fun e => decide (e ≠ (z, port, protocol))) })
    else .error ⟨.NOT_ENABLED, port⟩
  else .error ⟨.INVALID_ZONE, z⟩

/-- Modelled from the spec: fw.zone.query_port. -/
def FwZone.query_port (st : FwState) (zone port protocol : String) : Bool :=
  decide ((resolveZone st zone, port, protocol) ∈ st.ports)

/-- Modelled from the spec: fw.zone.add_rule on a parsed rich rule; rules
are identified by their original text (round-trip stable parse). -/
def FwZone.add_rule (st : FwState) (zone rule : String) :
    Except FwError (String × FwState) :=
  let z := resolveZone st zone
  if z ∈ st.zones then
    if (z, rule) ∈ st.richRules then .error ⟨.ALREADY_ENABLED, rule⟩
    else .ok (z, { st with richRules := st.richRules ++ [(z, rule)] })
  else .error ⟨.INVALID_ZONE, z⟩

/-- Modelled from the spec: fw.zone.remove_rule. -/
def FwZone.remove_rule (st : FwState) (zone rule : String) :
    Except FwError (String × FwState) :=
  let z := resolveZone st zone
  if z ∈ st.zones then
    if (z, rule) ∈ st.richRules then
      .ok (z, { st with
                richRules := st.richRules.filter
                  (fun e => decide (e ≠ (z, rule))) })
    else .error ⟨.NOT_ENABLED, rule⟩
  else .error ⟨.INVALID_ZONE, z⟩

/-- Modelled from the spec: fw.direct.add_passthrough — tracked
passthroughs are recorded in insertion order with set semantics. -/
def FwDirect.add_passthrough (st : FwState) (ipv : String) (args : Args) :
    Except FwError FwState :=
  if (ipv, args) ∈ st.passthroughs then .error ⟨.ALREADY_ENABLED, ipv⟩
  else .ok { st with passthroughs := st.passthroughs ++ [(ipv, args)] }

/-- Modelled from the spec: fw.direct.remove_passthrough. -/
def FwDirect.remove_passthrough (st : FwState) (ipv : String) (args : Args) :
    Except FwError FwState :=
  if (ipv, args) ∈ st.passthroughs then
    .ok { st with
          passthroughs := st.passthroughs.filter
            (fun e => decide (e ≠ (ipv, args))) }
  else .error ⟨.NOT_ENABLED, ipv⟩

/-- Modelled from the spec: fw.direct.get_all_passthroughs enumerates the
tracked passthroughs in insertion order. -/
def FwDirect.get_all_passthroughs (st : FwState) : List (String × Args) :=
  st.passthroughs

/-- Modelled from the spec: fw.direct.query_passthrough. -/
def FwDirect.query_passthrough (st : FwState) (ipv : String) (args : Args) :
    Bool :=
  decide ((ipv, args) ∈ st.passthroughs)

/-- Modelled from the spec: GLib.timeout_add_seconds registers a fresh
one-shot timeout source with deadline now + seconds and returns its tag. -/
def glibTimeoutAddSeconds (st : FwState) (seconds : Nat) (cb : TimerCb) :
    Nat × FwState :=
  (st.nextTag,
   { st with
     sources := st.sources ++ [⟨st.nextTag, st.now + seconds, cb⟩],
     nextTag := st.nextTag + 1 })

/-- Modelled from the spec: GLib.source_remove unregisters the source with
the given tag, a no-op when no such source is live. -/
def glibSourceRemove (st : FwState) (tag : Nat) : FwState :=
  { st with sources := st.sources.filter (fun g => decide (g.tag ≠ tag)) }

/-- Modelled from the spec: fw.reload — rebuild zones, services, ports and
rich rules from the persistent store, keeping runtime-only direct rules
(tracked passthroughs); the Firewall core has no access to the _timeouts
table or the GLib sources of the FirewallD object. -/
def Firewall.reload (st : FwState) : FwState :=
  { st with
    zones := st.perm.zones
    services := st.perm.services
    ports := st.perm.ports
    richRules := st.perm.richRules }

/-- Time passing on the main loop changes nothing but the clock. -/
def advanceTime (st : FwState) (d : Nat) : FwState :=
  { st with now := st.now + d }

namespace FirewallD

/-- Transcribed from FirewallD.addTimeout (lines 112 to 116): ensure the
per-zone dict exists, then store the tag under the entry key, overwriting
any previous tag for the same key without removing its source. -/
def addTimeout (st : FwState) (zone : String) (x : PKey) (tag : Nat) :
    FwState :=
  { st with timeouts := setAssoc st.timeouts (zone, x) tag }

/-- Transcribed from FirewallD.removeTimeout (lines 118 to 122): when the
key is present, GLib.source_remove the stored tag and delete the entry;
otherwise do nothing. -/
def removeTimeout (st : FwState) (zone : String) (x : PKey) : FwState :=
  match lookupAssoc st.timeouts (zone, x) with
  | none => st
  | some tag =>
    let st1 := glibSourceRemove st tag
    { st1 with
      timeouts := st1.timeouts.filter (fun e => decide (e.1 ≠ (zone, x))) }

/-- Transcribed from FirewallD.cleanup_timeouts (lines 124 to 131):
GLib.source_remove every stored tag, then clear the whole table. -/
def cleanup_timeouts (st : FwState) : FwState :=
  { st with
    sources := st.sources.filter
      (fun g => !(st.timeouts.any (fun e => decide (e.2 = g.tag))))
    timeouts := [] }

/-- Transcribed from FirewallD.reload (lines 228 to 238): fw.reload, then
config.reload (config store only), then emit Reloaded.  The _timeouts table
and the live GLib sources are not touched. -/
def reload (st : FwState) : FwState :=
  emit (Firewall.reload st) .reloaded

/-- Transcribed from FirewallD.disableTimedService (lines 1183 to 1189),
the callback bound by a timed addService: del the timeouts entry (a
KeyError aborts the callback), remove the service from the model, emit
ServiceRemoved.  The source that ran this callback is gone already. -/
def disableTimedService (st : FwState) (zone service : String) : FwState :=
  match lookupAssoc st.timeouts (zone, .service service) with
  | none => st
  | some _ =>
    let st1 := { st with
                 timeouts := st.timeouts.filter
                   (fun e => decide (e.1 ≠ (zone, PKey.service service))) }
    match FwZone.remove_service st1 zone service with
    | .error _ => st1
    | .ok (_, st2) => emit st2 (.serviceRemoved zone service)

/-- Transcribed from FirewallD.disableTimedPort (lines 1266 to 1272). -/
def disableTimedPort (st : FwState) (zone port protocol : String) :
    FwState :=
  match lookupAssoc st.timeouts (zone, .portProto port protocol) with
  | none => st
  | some _ =>
    let st1 := { st with
                 timeouts := st.timeouts.filter
                   (fun e => decide (e.1 ≠ (zone, PKey.portProto port protocol))) }
    match FwZone.remove_port st1 zone port protocol with
    | .error _ => st1
    | .ok (_, st2) => emit st2 (.portRemoved zone port protocol)

/-- Transcribed from FirewallD.disableTimedRichRule (lines 1104 to 1109). -/
def disableTimedRichRule (st : FwState) (zone rule : String) : FwState :=
  match lookupAssoc st.timeouts (zone, .rich rule) with
  | none => st
  | some _ =>
    let st1 := { st with
                 timeouts := st.timeouts.filter
                   (fun e => decide (e.1 ≠ (zone, PKey.rich rule))) }
    match FwZone.remove_rule st1 zone rule with
    | .error _ => st1
    | .ok (_, st2) => emit st2 (.richRuleRemoved zone rule)

/-- Transcribed from FirewallD.addService (lines 1189 to 1209): accessCheck
first, then fw.zone.add_service, then when timeout is positive arm a GLib
timeout source with the disableTimedService callback and record its tag,
then emit ServiceAdded with the resolved zone, and return that zone. -/
def addService (st : FwState) (zone service : String) (timeout : Int)
    (sender : Option CallerInfo) : Except FwError (String × FwState) := do
  let _ ← accessCheckE st sender
  let (z, st1) ← FwZone.add_service st zone service
  let st2 :=
    if timeout > 0 then
      let (tag, sta) :=
        glibTimeoutAddSeconds st1 timeout.toNat (.timedService z service)
      addTimeout sta z (.service service) tag
    else st1
  .ok (z, emit st2 (.serviceAdded z service timeout))

/-- Transcribed from FirewallD.removeService (lines 1211 to 1226):
accessCheck, fw.zone.remove_service, removeTimeout for the key, emit
ServiceRemoved with the resolved zone. -/
def removeService (st : FwState) (zone service : String)
    (sender : Option CallerInfo) : Except FwError (String × FwState) := do
  let _ ← accessCheckE st sender
  let (z, st1) ← FwZone.remove_service st zone service
  let st2 := removeTimeout st1 z (.service service)
  .ok (z, emit st2 (.serviceRemoved z service))

/-- Transcribed from FirewallD.queryService (lines 1228 to 1236): a plain
model query, with no accessCheck. -/
def queryService (st : FwState) (zone service : String) : Bool :=
  FwZone.query_service st zone service

/-- Transcribed from FirewallD.addPort (lines 1274 to 1295). -/
def addPort (st : FwState) (zone port protocol : String) (timeout : Int)
    (sender : Option CallerInfo) : Except FwError (String × FwState) := do
  let _ ← accessCheckE st sender
  let (z, st1) ← FwZone.add_port st zone port protocol
  let st2 :=
    if timeout > 0 then
      let (tag, sta) :=
        glibTimeoutAddSeconds st1 timeout.toNat (.timedPort z port protocol)
      addTimeout sta z (.portProto port protocol) tag
    else st1
  .ok (z, emit st2 (.portAdded z port protocol timeout))

/-- Transcribed from FirewallD.removePort (lines 1297 to 1313). -/
def removePort (st : FwState) (zone port protocol : String)
    (sender : Option CallerInfo) : Except FwError (String × FwState) := do
  let _ ← accessCheckE st sender
  let (z, st1) ← FwZone.remove_port st zone port protocol
  let st2 := removeTimeout st1 z (.portProto port protocol)
  .ok (z, emit st2 (.portRemoved z port protocol))

/-- Transcribed from FirewallD.queryPort (lines 1315 to 1325). -/
def queryPort (st : FwState) (zone port protocol : String) : Bool :=
  FwZone.query_port st zone port protocol

/-- Transcribed from FirewallD.addRichRule (lines 1111 to 1129): parse the
rule, fw.zone.add_rule, arm a timer when timeout is positive, emit
RichRuleAdded.  Unlike addService and addPort, the source performs no
accessCheck call in this method. -/
def addRichRule (st : FwState) (zone rule : String) (timeout : Int)
    (_sender : Option CallerInfo) : Except FwError (String × FwState) := do
  let (z, st1) ← FwZone.add_rule st zone rule
  let st2 :=
    if timeout > 0 then
      let (tag, sta) :=
        glibTimeoutAddSeconds st1 timeout.toNat (.timedRichRule z rule)
      addTimeout sta z (.rich rule) tag
    else st1
  .ok (z, emit st2 (.richRuleAdded z rule timeout))

/-- Transcribed from FirewallD.removeRichRule (lines 1131 to 1143): parse,
fw.zone.remove_rule, removeTimeout, emit RichRuleRemoved.  As in
addRichRule, the source performs no accessCheck call here. -/
def removeRichRule (st : FwState) (zone rule : String)
    (_sender : Option CallerInfo) : Except FwError (String × FwState) := do
  let (z, st1) ← FwZone.remove_rule st zone rule
  let st2 := removeTimeout st1 z (.rich rule)
  .ok (z, emit st2 (.richRuleRemoved z rule))

/-- Transcribed from FirewallD.addPassthrough (lines 1878 to 1889):
accessCheck, fw.direct.add_passthrough, emit PassthroughAdded. -/
def addPassthrough (st : FwState) (ipv : String) (args : Args)
    (sender : Option CallerInfo) : Except FwError FwState := do
  let _ ← accessCheckE st sender
  let st1 ← FwDirect.add_passthrough st ipv args
  .ok (emit st1 (.passthroughAdded ipv args))

/-- Transcribed from FirewallD.removePassthrough (lines 1891 to 1902):
accessCheck, fw.direct.remove_passthrough, emit PassthroughRemoved. -/
def removePassthrough (st : FwState) (ipv : String) (args : Args)
    (sender : Option CallerInfo) : Except FwError FwState := do
  let _ ← accessCheckE st sender
  let st1 ← FwDirect.remove_passthrough st ipv args
  .ok (emit st1 (.passthroughRemoved ipv args))

/-- Transcribed from FirewallD.getAllPassthroughs (lines 1916 to 1923). -/
def getAllPassthroughs (st : FwState) : List (String × Args) :=
  FwDirect.get_all_passthroughs st

/-- Loop body of removeAllPassthroughs: the Python for statement calling
self.removePassthrough on each enumerated entry; the sender argument is not
forwarded, so each inner call runs with sender = None. -/
def removePassthroughLoop (l : List (String × Args)) (st : FwState) :
    Except FwError FwState :=
  match l with
  | [] => .ok st
  | p :: rest => do
    let st1 ← removePassthrough st p.1 p.2 none
    removePassthroughLoop rest st1

/-- Transcribed from FirewallD.removeAllPassthroughs (lines 1925 to 1934):
iterate over reversed(getAllPassthroughs()) and call removePassthrough on
each entry. -/
def removeAllPassthroughs (st : FwState) (_sender : Option CallerInfo) :
    Except FwError FwState :=
  removePassthroughLoop (getAllPassthroughs st).reverse st

end FirewallD

/-- Dispatch of a timeout source callback to the bound disableTimed*
method. -/
def runTimerCb (st : FwState) : TimerCb → FwState
  | .timedService z s => FirewallD.disableTimedService st z s
  | .timedPort z p pr => FirewallD.disableTimedPort st z p pr
  | .timedRichRule z r => FirewallD.disableTimedRichRule st z r

/-- Modelled from the spec: the GLib main loop dispatches a live timeout
source once its deadline is reached; the disableTimed* callbacks return
None, so GLib removes the source after the single dispatch (at most one
fire per source).  Returns none when the tag is not live or the deadline
lies in the future. -/
def fireSource (st : FwState) (tag : Nat) : Option FwState :=
  match st.sources.find? (fun g => decide (g.tag = tag)) with
  | none => none
  | some g =>
    if g.deadline ≤ st.now then
      some (runTimerCb (glibSourceRemove st tag) g.cb)
    else none

/-- Polkit action identifiers used by the server (firewall.config.dbus). -/
inductive PolkitAction where
  | info
  | config
  | configInfo
  | direct
  | directInfo
  | policies
  | policiesInfo
  | all
  deriving DecidableEq, Repr

/-- Transcribed from the class attribute default_polkit_auth_required =
PK_ACTION_INFO (lines 52 to 58). -/
def default_polkit_auth_required : PolkitAction := .info

/-- Methods of the direct D-Bus interface. -/
inductive DirectMethod where
  | addChain
  | removeChain
  | queryChain
  | getChains
  | getAllChains
  | addRule
  | removeRule
  | removeRules
  | queryRule
  | getRules
  | getAllRules
  | passthrough
  | addPassthrough
  | removePassthrough
  | queryPassthrough
  | getAllPassthroughs
  | removeAllPassthroughs
  | getPassthroughs
  deriving DecidableEq, Repr

/-- Transcribed from the decorator stacks on the direct-interface methods
(lines 1689 to 1957): the action named by the slip.dbus.polkit.require_auth
decorator when one is present, none when the method carries no such
decorator.  addPassthrough (line 1878) and removePassthrough (line 1891)
carry only dbus_service_method and dbus_handle_exceptions. -/
def requireAuthDecorator : DirectMethod → Option PolkitAction
  | .addChain => some .direct
  | .removeChain => some .direct
  | .queryChain => some .directInfo
  | .getChains => some .directInfo
  | .getAllChains => some .directInfo
  | .addRule => some .direct
  | .removeRule => some .direct
  | .removeRules => some .direct
  | .queryRule => some .directInfo
  | .getRules => some .directInfo
  | .getAllRules => some .directInfo
  | .passthrough => some .direct
  | .addPassthrough => none
  | .removePassthrough => none
  | .queryPassthrough => some .directInfo
  | .getAllPassthroughs => some .directInfo
  | .removeAllPassthroughs => some .direct
  | .getPassthroughs => some .directInfo

/-- Modelled from the spec: slip.dbus.service.Object authorizes a method
without an explicit require_auth decorator against the class default
action, default_polkit_auth_required. -/
def polkitActionOf (m : DirectMethod) : PolkitAction :=
  (requireAuthDecorator m).getD default_polkit_auth_required

/-- Inputs of one runtimeToPermanent walk: the runtime entity names per
category, and per-category persistence oracles standing for the
config-store interactions of the per-entity try body (getByName, add,
update), which live outside the given source file.  An oracle returns ok
when persisting the entity succeeds and the raised exception text
otherwise. -/
structure RTPOracles where
  services : List String
  icmptypes : List String
  zones : List String
  persistService : String → Except String Unit
  persistIcmp : String → Except String Unit
  persistZone : String → Except String Unit
  persistDirect : Except String Unit
  persistPolicies : Except String Unit

/-- Transcribed from the per-category for loops of runtimeToPermanent
(lines 264 to 374): each entity is attempted in turn; a per-entity failure
is wrapped as FirewallError(RT_TO_PERM_FAILED, category name : text) and
raised, which leaves the loop at once.  Returns the list of attempted
entity names together with the result.  The source message quotes the
entity name in single quotation marks; the quotation marks are omitted
here. -/
def rtpWalk (category : String) (names : List String)
    (persist : String → Except String Unit) :
    List String × Except FwError Unit :=
  match names with
  | [] => ([], .ok ())
  | n :: rest =>
    match persist n with
    | .ok () =>
      let (att, r) := rtpWalk category rest persist
      (n :: att, r)
    | .error e =>
      ([n], .error ⟨.RT_TO_PERM_FAILED, category ++ " " ++ n ++ " : " ++ e⟩)

/-- Transcribed from FirewallD.runtimeToPermanent (lines 264 to 374):
services, then icmptypes, then zones, each via rtpWalk; then the direct
configuration and the policies configuration, whose failures are wrapped
with the fixed message heads of the source.  A raised FirewallError propagates
out at once, so categories after the failing one are not reached.  Returns
the attempted (category, name) pairs together with the result. -/
def FirewallD.runtimeToPermanent (o : RTPOracles) :
    List (String × String) × Except FwError Unit :=
  let (a1, r1) := rtpWalk "service" o.services o.persistService
  let att1 := a1.map (fun n => ("service", n))
  match r1 with
  | .error e => (att1, .error e)
  | .ok () =>
    let (a2, r2) := rtpWalk "icmptype" o.icmptypes o.persistIcmp
    let att2 := att1 ++ a2.map (fun n => ("icmptype", n))
    match r2 with
    | .error e => (att2, .error e)
    | .ok () =>
      let (a3, r3) := rtpWalk "zone" o.zones o.persistZone
      let att3 := att2 ++ a3.map (fun n => ("zone", n))
      match r3 with
      | .error e => (att3, .error e)
      | .ok () =>
        let att4 := att3 ++ [("direct", "configuration")]
        match o.persistDirect with
        | .error e =>
          (att4, .error ⟨.RT_TO_PERM_FAILED, "direct configuration: " ++ e⟩)
        | .ok () =>
          let att5 := att4 ++ [("policies", "configuration")]
          match o.persistPolicies with
          | .error e =>
            (att5,
             .error ⟨.RT_TO_PERM_FAILED, "policies configuration: " ++ e⟩)
          | .ok () => (att5, .ok ())

/-!  Helper lemmas shared by the claim theorems. -/

/-- accessCheck never fails when the sender is not set. -/
lemma accessCheckE_none (st : FwState) : accessCheckE st none = .ok () := by
  unfold accessCheckE accessCheck
  cases st.lockdown <;> simp

/-- Appending a fresh element and filtering it away is the identity. -/
lemma filter_ne_append_self {α : Type} [DecidableEq α] (l : List α) (a : α)
    (h : a ∉ l) : (l ++ [a]).filter (fun e => decide (e ≠ a)) = l := by
  have h1 : l.filter (fun e => decide (e ≠ a)) = l := by
    rw [List.filter_eq_self]
    intro b hb
    simp only [decide_eq_true_eq]
    exact fun hba => h (hba ▸ hb)
  rw [List.filter_append, h1]
  simp

/-- find? skips a non-matching initial segment. -/
lemma find?_append_of_none {α : Type} (p : α → Bool) (l1 l2 : List α)
    (h : l1.find? p = none) : (l1 ++ l2).find? p = l2.find? p := by
  induction l1 with
  | nil => simp
  | cons a rest ih =>
    rw [List.find?_cons] at h
    cases hp : p a with
    | true => simp [hp] at h
    | false =>
      simp only [hp] at h
      simpa [List.find?_cons, hp] using ih h

/-- Characterization of an absent key in the timeouts table. -/
lemma lookupAssoc_none_iff (l : List ((String × PKey) × Nat))
    (key : String × PKey) :
    lookupAssoc l key = none ↔ ∀ e ∈ l, e.1 ≠ key := by
  simp [lookupAssoc, List.find?_eq_none]

/-- Dict update on an absent key appends the binding. -/
lemma setAssoc_absent (l : List ((String × PKey) × Nat))
    (key : String × PKey) (tag : Nat) (h : ∀ e ∈ l, e.1 ≠ key) :
    setAssoc l key tag = l ++ [(key, tag)] := by
  unfold setAssoc
  rw [if_neg]
  simp only [List.any_eq_true, decide_eq_true_eq, not_exists]
  intro e he
  exact h e he.1 he.2

/-- Dict lookup after appending a binding for a previously absent key. -/
lemma lookupAssoc_append_self (l : List ((String × PKey) × Nat))
    (key : String × PKey) (tag : Nat) (h : ∀ e ∈ l, e.1 ≠ key) :
    lookupAssoc (l ++ [(key, tag)]) key = some tag := by
  have hn : l.find? (fun e => decide (e.1 = key)) = none := by
    rw [List.find?_eq_none]
    intro x hx
    simpa using h x hx
  unfold lookupAssoc
  rw [find?_append_of_none _ l _ hn]
  simp [List.find?_cons]

/-- Deleting a key present only in the appended binding restores the
original table. -/
lemma filter_key_append (l : List ((String × PKey) × Nat))
    (key : String × PKey) (tag : Nat) (h : ∀ e ∈ l, e.1 ≠ key) :
    (l ++ [(key, tag)]).filter (fun e => decide (e.1 ≠ key)) = l := by
  have h1 : l.filter (fun e => decide (e.1 ≠ key)) = l := by
    rw [List.filter_eq_self]
    intro b hb
    simp only [decide_eq_true_eq]
    exact h b hb
  rw [List.filter_append, h1]
  simp

/-- Removal from the zone model keeps the GLib source table. -/
lemma remove_service_sources (st : FwState) (z s r : String) (st2 : FwState)
    (h : FwZone.remove_service st z s = .ok (r, st2)) :
    st2.sources = st.sources := by
  simp only [FwZone.remove_service] at h
  split_ifs at h
  simp only [Except.ok.injEq, Prod.mk.injEq] at h
  obtain ⟨-, h2⟩ := h
  rw [← h2]

/-- Removal of a port keeps the GLib source table. -/
lemma remove_port_sources (st : FwState) (z p pr r : String) (st2 : FwState)
    (h : FwZone.remove_port st z p pr = .ok (r, st2)) :
    st2.sources = st.sources := by
  simp only [FwZone.remove_port] at h
  split_ifs at h
  simp only [Except.ok.injEq, Prod.mk.injEq] at h
  obtain ⟨-, h2⟩ := h
  rw [← h2]

/-- Removal of a rich rule keeps the GLib source table. -/
lemma remove_rule_sources (st : FwState) (z ru r : String) (st2 : FwState)
    (h : FwZone.remove_rule st z ru = .ok (r, st2)) :
    st2.sources = st.sources := by
  simp only [FwZone.remove_rule] at h
  split_ifs at h
  simp only [Except.ok.injEq, Prod.mk.injEq] at h
  obtain ⟨-, h2⟩ := h
  rw [← h2]

/-- Continuation step of the disableTimed* callbacks: the error branch
keeps the intermediate state, the ok branch emits a signal; neither touches
the GLib source table. -/
lemma matchRemove_sources (st st1 : FwState)
    (res : Except FwError (String × FwState)) (sig : Signal)
    (h1 : st1.sources = st.sources)
    (h2 : ∀ r st2, res = .ok (r, st2) → st2.sources = st1.sources) :
    (match res with
     | .error _ => st1
     | .ok (_, st2) => emit st2 sig).sources = st.sources := by
  cases res with
  | error e => exact h1
  | ok p =>
    obtain ⟨r, st2⟩ := p
    simpa [emit] using (h2 r st2 rfl).trans h1

/-- Timer callbacks never touch the GLib source table. -/
lemma runTimerCb_sources (st : FwState) (cb : TimerCb) :
    (runTimerCb st cb).sources = st.sources := by
  cases cb with
  | timedService z s =>
    simp only [runTimerCb, FirewallD.disableTimedService]
    cases lookupAssoc st.timeouts (z, .service s) with
    | none => rfl
    | some tag =>
      exact matchRemove_sources st _ _ _ rfl
        (fun r st2 h => remove_service_sources _ z s r st2 h)
  | timedPort z p pr =>
    simp only [runTimerCb, FirewallD.disableTimedPort]
    cases lookupAssoc st.timeouts (z, .portProto p pr) with
    | none => rfl
    | some tag =>
      exact matchRemove_sources st _ _ _ rfl
        (fun r st2 h => remove_port_sources _ z p pr r st2 h)
  | timedRichRule z ru =>
    simp only [runTimerCb, FirewallD.disableTimedRichRule]
    cases lookupAssoc st.timeouts (z, .rich ru) with
    | none => rfl
    | some tag =>
      exact matchRemove_sources st _ _ _ rfl
        (fun r st2 h => remove_rule_sources _ z ru r st2 h)

/-!  C3 — accessCheck check order under lockdown. -/

/-- C3: when lockdown is enabled and a caller identity is present,
accessCheck resolves and tests the caller against the whitelist in the
order context, uid, user, command; the first matching check returns without
error and stops resolving further attributes (any single match suffices,
witnessed by the iff), and when none of the four match it raises
ACCESS_DENIED with the message "lockdown is enabled". -/
theorem C3_accessCheck_order (wl : LockdownWhitelist) (c : CallerInfo) :
    ((accessCheck true wl (some c)).2 = .ok () ↔
      (c.context ∈ wl.contexts ∨ c.uid ∈ wl.uids ∨ c.user ∈ wl.users ∨
        c.command ∈ wl.commands)) ∧
    (c.context ∈ wl.contexts →
      accessCheck true wl (some c) = ([.context], .ok ())) ∧
    (c.context ∉ wl.contexts → c.uid ∈ wl.uids →
      accessCheck true wl (some c) = ([.context, .uid], .ok ())) ∧
    (c.context ∉ wl.contexts → c.uid ∉ wl.uids → c.user ∈ wl.users →
      accessCheck true wl (some c) = ([.context, .uid, .user], .ok ())) ∧
    (c.context ∉ wl.contexts → c.uid ∉ wl.uids → c.user ∉ wl.users →
      c.command ∈ wl.commands →
      accessCheck true wl (some c) =
        ([.context, .uid, .user, .command], .ok ())) ∧
    (c.context ∉ wl.contexts → c.uid ∉ wl.uids → c.user ∉ wl.users →
      c.command ∉ wl.commands →
      accessCheck true wl (some c) =
        ([.context, .uid, .user, .command],
         .error ⟨.ACCESS_DENIED, "lockdown is enabled"⟩)) := by
  simp only [accessCheck, if_pos rfl]
  split_ifs with h1 h2 h3 h4 <;> simp_all

/-- Witness for C3 at a concrete caller matching only by uid: the context
check fails, the uid check matches, and the lookups stop there. -/
theorem C3_accessCheck_order_witness :
    accessCheck true ⟨["ctxA"], [1000], [], []⟩
        (some ⟨"other", 1000, "alice", "/bin/tool"⟩) =
      ([.context, .uid], .ok ()) :=
  (C3_accessCheck_order ⟨["ctxA"], [1000], [], []⟩
    ⟨"other", 1000, "alice", "/bin/tool"⟩).2.2.1 (by decide) (by decide)

/-!  C10 — accessCheck with lockdown enabled but no sender. -/

/-- C10: when lockdown is enabled but the caller identity is unavailable
(sender is None), accessCheck returns normally without consulting the
whitelist, so a gated operation proceeds exactly as if the whitelist check
had passed. -/
theorem C10_accessCheck_no_sender (wl : LockdownWhitelist) :
    accessCheck true wl none = ([], .ok ()) := by
  simp [accessCheck]

/-!  C1 — polkit action gating the tracked-passthrough mutators. -/

/-- C1 (code bug): the tracked-passthrough mutators addPassthrough and
removePassthrough carry no require_auth decorator, so they are authorized
against the class default action PK_ACTION_INFO and not against
PK_ACTION_DIRECT, unlike every other mutator of the direct interface
(addChain, addRule, passthrough, removeAllPassthroughs, ...). -/
theorem C1_addPassthrough_info_action :
    polkitActionOf .addPassthrough = .info ∧
    polkitActionOf .removePassthrough = .info ∧
    polkitActionOf .addPassthrough ≠ .direct ∧
    polkitActionOf .removePassthrough ≠ .direct ∧
    polkitActionOf .addChain = .direct ∧
    polkitActionOf .addRule = .direct ∧
    polkitActionOf .passthrough = .direct ∧
    polkitActionOf .removeAllPassthroughs = .direct := by
  decide

/-!  C7 — error handling in runtimeToPermanent. -/

/-- rtpWalk aborts at the first failing entity: entities before the failure
are attempted, the failing entity is wrapped, later ones are not reached. -/
lemma rtpWalk_first_failure (category : String) (pre : List String)
    (n : String) (rest : List String) (e : String)
    (persist : String → Except String Unit)
    (hpre : ∀ m ∈ pre, persist m = .ok ()) (hn : persist n = .error e) :
    rtpWalk category (pre ++ n :: rest) persist =
      (pre ++ [n],
       .error ⟨.RT_TO_PERM_FAILED, category ++ " " ++ n ++ " : " ++ e⟩) := by
  induction pre with
  | nil => simp [rtpWalk, hn]
  | cons m pre ih =>
    have hm : persist m = .ok () := hpre m (by simp)
    have ih2 := ih (fun x hx => hpre x (by simp [hx]))
    simp [rtpWalk, hm, ih2]

/-- Oracles for the counterexample: two runtime services, the first of
which fails to persist. -/
def rtpFailOracles : RTPOracles where
  services := ["svcA", "svcB"]
  icmptypes := []
  zones := []
  persistService := fun n => if n = "svcA" then .error "boom" else .ok ()
  persistIcmp := fun _ => .ok ()
  persistZone := fun _ => .ok ()
  persistDirect := .ok ()
  persistPolicies := .ok ()

/-- C7 counterexample: with services svcA and svcB where persisting svcA
fails, runtimeToPermanent raises RT_TO_PERM_FAILED for svcA and never
attempts svcB, contradicting the claim that the walk continues to the next
entity of the same category. -/
theorem C7_counterexample :
    FirewallD.runtimeToPermanent rtpFailOracles =
      (["service"].flatMap (fun c => [(c, "svcA")]),
       .error ⟨.RT_TO_PERM_FAILED, "service svcA : boom"⟩) ∧
    ("service", "svcB") ∉ (FirewallD.runtimeToPermanent rtpFailOracles).1 := by
  constructor
  · rfl
  · decide

/-- C7 as amended: a failure while persisting one entity is wrapped in an
RT_TO_PERM_FAILED error carrying that entity identifier, and the whole call
aborts at once: entities of the same category after the failing one, and
all later categories, are not attempted. -/
theorem C7_rtp_wraps_and_aborts (o : RTPOracles) (pre : List String)
    (n : String) (rest : List String) (e : String)
    (hsvc : o.services = pre ++ n :: rest)
    (hpre : ∀ m ∈ pre, o.persistService m = .ok ())
    (hn : o.persistService n = .error e) :
    FirewallD.runtimeToPermanent o =
      (pre.map (fun m => ("service", m)) ++ [("service", n)],
       .error ⟨.RT_TO_PERM_FAILED, "service " ++ n ++ " : " ++ e⟩) := by
  unfold FirewallD.runtimeToPermanent
  rw [hsvc, rtpWalk_first_failure "service" pre n rest e o.persistService
    hpre hn]
  simp

/-- Witness for C7 as amended: one service persists, the next one fails,
the third is never attempted and the error carries the failing name. -/
theorem C7_rtp_wraps_and_aborts_witness :
    FirewallD.runtimeToPermanent
        { rtpFailOracles with
          services := ["svc0", "svcA", "svcC"],
          persistService := fun n =>
            if n = "svcA" then .error "boom" else .ok () } =
      ([("service", "svc0"), ("service", "svcA")],
       .error ⟨.RT_TO_PERM_FAILED, "service svcA : boom"⟩) := by
  have h := C7_rtp_wraps_and_aborts
    { rtpFailOracles with
      services := ["svc0", "svcA", "svcC"],
      persistService := fun n =>
        if n = "svcA" then .error "boom" else .ok () }
    ["svc0"] "svcA" ["svcC"] "boom" rfl (by decide) (by decide)
  simpa using h

/-!  C4 — reload and the timeout table. -/

/-- Empty lockdown whitelist. -/
def wl0 : LockdownWhitelist := ⟨[], [], [], []⟩

/-- Persistent store holding the zone public with an open port 80/tcp. -/
def permPort : PermConfig where
  zones := ["public"]
  services := []
  ports := [("public", "80", "tcp")]
  richRules := []

/-- Initial daemon state: default zone public, lockdown disabled, no
runtime entries, no timers. -/
def st0 : FwState where
  defaultZone := "public"
  zones := ["public"]
  services := []
  ports := []
  richRules := []
  passthroughs := []
  lockdown := false
  whitelist := wl0
  perm := permPort
  timeouts := []
  sources := []
  nextTag := 0
  now := 0
  signals := []

/-- State after addPort(public, 80, tcp, 7) on st0: the port is in the
model, a source with tag 0 and deadline 7 is live, the timeouts table
records it, and PortAdded was emitted. -/
def stTimed : FwState :=
  { st0 with
    ports := [("public", "80", "tcp")]
    sources := [⟨0, 7, .timedPort "public" "80" "tcp"⟩]
    timeouts := [(("public", .portProto "80" "tcp"), 0)]
    nextTag := 1
    signals := [.portAdded "public" "80" "tcp" 7] }

/-- C4 (code bug): reload does not cancel armed timers.  After a timed
addPort, reload leaves the timeouts table entry in place and the GLib
source live, and the expiry callback armed before the reload still fires
afterwards, removing the reloaded port and emitting PortRemoved.  The
cleanup_timeouts helper that would cancel them is never invoked by
reload. -/
theorem C4_reload_keeps_timers :
    FirewallD.addPort st0 "public" "80" "tcp" 7 none =
      .ok ("public", stTimed) ∧
    (FirewallD.reload stTimed).timeouts =
      [(("public", .portProto "80" "tcp"), 0)] ∧
    (FirewallD.reload stTimed).sources =
      [⟨0, 7, .timedPort "public" "80" "tcp"⟩] ∧
    (fireSource (advanceTime (FirewallD.reload stTimed) 7) 0).isSome =
      true ∧
    ((fireSource (advanceTime (FirewallD.reload stTimed) 7) 0).getD
        st0).signals =
      [.portAdded "public" "80" "tcp" 7, .reloaded,
       .portRemoved "public" "80" "tcp"] ∧
    ((fireSource (advanceTime (FirewallD.reload stTimed) 7) 0).getD
        st0).ports = [] := by
  refine ⟨by decide, by decide, by decide, by decide, by decide, by decide⟩

/-!  C2 — lockdown whitelist check in the rich-rule mutators. -/

/-- st0 with lockdown enabled; the whitelist is empty, so every resolved
caller identity fails the whitelist check. -/
def stLock : FwState := { st0 with lockdown := true }

/-- Some caller identity; with an empty whitelist nothing matches it. -/
def caller0 : CallerInfo where
  context := "system_u:system_r:sometype_t:s0"
  uid := 1000
  user := "alice"
  command := "/usr/bin/sometool"

/-- C2 (code bug): with lockdown enabled and a caller that the whitelist
denies, addService aborts with ACCESS_DENIED before any mutation, but
addRichRule and removeRichRule perform no accessCheck call at all: they
mutate the rule set and emit their signals for the very caller that
accessCheck rejects. -/
theorem C2_addRichRule_skips_accessCheck :
    accessCheckE stLock (some caller0) =
      .error ⟨.ACCESS_DENIED, "lockdown is enabled"⟩ ∧
    FirewallD.addService stLock "public" "ssh" 0 (some caller0) =
      .error ⟨.ACCESS_DENIED, "lockdown is enabled"⟩ ∧
    FirewallD.addRichRule stLock "public" "ruleX" 0 (some caller0) =
      .ok ("public",
        { stLock with
          richRules := [("public", "ruleX")]
          signals := [.richRuleAdded "public" "ruleX" 0] }) ∧
    FirewallD.removeRichRule
        { stLock with
          richRules := [("public", "ruleX")]
          signals := [.richRuleAdded "public" "ruleX" 0] }
        "public" "ruleX" (some caller0) =
      .ok ("public",
        { stLock with
          richRules := []
          signals := [.richRuleAdded "public" "ruleX" 0,
                      .richRuleRemoved "public" "ruleX"] }) := by
  refine ⟨by decide, by decide, by decide, by decide⟩

/-!  C9 — removeAllPassthroughs removes in reverse insertion order. -/

/-- Processing a duplicate-free list of entries, all of them tracked,
removes each and emits one PassthroughRemoved per entry in list order. -/
lemma removePassthroughLoop_ok (l : List (String × Args)) (st : FwState)
    (hsub : ∀ p ∈ l, p ∈ st.passthroughs) (hnd : l.Nodup) :
    ∃ st2, FirewallD.removePassthroughLoop l st = .ok st2 ∧
      st2.signals = st.signals ++
        l.map (fun p => Signal.passthroughRemoved p.1 p.2) ∧
      st2.passthroughs = st.passthroughs.filter (fun e => decide (e ∉ l)) := by
  induction l generalizing st with
  | nil =>
    refine ⟨st, rfl, by simp, ?_⟩
    simp
  | cons p rest ih =>
    have hp : p ∈ st.passthroughs := hsub p (by simp)
    have hstep : FirewallD.removePassthrough st p.1 p.2 none =
        .ok (emit { st with passthroughs := (st.passthroughs.filter (fun e => decide (e ≠ p))) }
            (.passthroughRemoved p.1 p.2)) := by
      simp only [FirewallD.removePassthrough, accessCheckE_none,
        FwDirect.remove_passthrough]
      rw [if_pos (by simpa using hp)]
      rfl
    set st1 := emit { st with passthroughs := (st.passthroughs.filter (fun e => decide (e ≠ p))) } (.passthroughRemoved p.1 p.2) with hst1
    have hsub1 : ∀ q ∈ rest, q ∈ st1.passthroughs := by
      intro q hq
      have hqp : q ≠ p := by
        intro hqe
        exact (List.nodup_cons.mp hnd).1 (hqe ▸ hq)
      have : q ∈ st.passthroughs := hsub q (by simp [hq])
      simp [hst1, emit, List.mem_filter, this, hqp]
    obtain ⟨st2, h1, h2, h3⟩ := ih st1 hsub1 (List.nodup_cons.mp hnd).2
    refine ⟨st2, ?_, ?_, ?_⟩
    · simp only [FirewallD.removePassthroughLoop, hstep, ← hst1]
      exact h1
    · rw [h2]
      simp [hst1, emit]
    · rw [h3]
      have hpp : st1.passthroughs =
          (st.passthroughs.filter (fun e => decide (e ≠ p))) := rfl
      rw [hpp, List.filter_filter]
      apply List.filter_congr
      intro e he
      by_cases h1e : e = p <;> by_cases h2e : e ∈ rest <;>
        simp [h1e, h2e]

/-- C9: removeAllPassthroughs enumerates the tracked passthroughs and
invokes removePassthrough on them in reverse insertion order, emitting one
PassthroughRemoved signal per removed entry, the last inserted entry
first and the first inserted entry last, leaving no tracked passthrough. -/
theorem C9_removeAllPassthroughs_reverse (st : FwState)
    (sender : Option CallerInfo) (hnd : st.passthroughs.Nodup) :
    ∃ st2, FirewallD.removeAllPassthroughs st sender = .ok st2 ∧
      st2.signals = st.signals ++
        st.passthroughs.reverse.map
          (fun p => Signal.passthroughRemoved p.1 p.2) ∧
      st2.passthroughs = [] := by
  obtain ⟨st2, h1, h2, h3⟩ := removePassthroughLoop_ok
    st.passthroughs.reverse st (fun p hp => List.mem_reverse.mp hp)
    (List.nodup_reverse.mpr hnd)
  refine ⟨st2, h1, h2, ?_⟩
  rw [h3]
  rw [List.filter_eq_nil_iff]
  intro a ha
  simp [List.mem_reverse, ha]

/-- Witness for C9: a chain-creating passthrough inserted before a
chain-filling one is removed after it. -/
theorem C9_removeAllPassthroughs_reverse_witness :
    ∃ st2, FirewallD.removeAllPassthroughs
        { st0 with passthroughs :=
            [("ipv4", ["-N", "A"]), ("ipv4", ["-A", "A", "-j", "ACCEPT"])] }
        none = .ok st2 ∧
      st2.signals =
        ({ st0 with passthroughs :=
            [("ipv4", ["-N", "A"]),
             ("ipv4", ["-A", "A", "-j", "ACCEPT"])] } : FwState).signals ++
        (({ st0 with passthroughs :=
            [("ipv4", ["-N", "A"]),
             ("ipv4", ["-A", "A", "-j", "ACCEPT"])] } : FwState).passthroughs).reverse.map
          (fun p => Signal.passthroughRemoved p.1 p.2) ∧
      st2.passthroughs = [] :=
  C9_removeAllPassthroughs_reverse
    { st0 with passthroughs :=
        [("ipv4", ["-N", "A"]), ("ipv4", ["-A", "A", "-j", "ACCEPT"])] }
    none (by decide)

/-!  C8 — empty zone argument resolves to the default zone. -/

/-- C8: a per-element zone mutator called with the empty string resolves it
to the default zone; the resolved name is the return value and the zone
payload of the emitted signal — never the empty string — and the call is
indistinguishable from one naming the default zone explicitly.  Shown for
addService and addPort, the two mutators the claim cites. -/
theorem C8_empty_zone_default (st : FwState)
    (service port protocol : String) (t : Int)
    (hz : st.defaultZone ∈ st.zones) (hne : st.defaultZone ≠ "")
    (hs : (st.defaultZone, service) ∉ st.services)
    (hp : (st.defaultZone, port, protocol) ∉ st.ports) :
    (∃ st2, FirewallD.addService st "" service t none =
        .ok (st.defaultZone, st2) ∧
      st2.signals = st.signals ++
        [Signal.serviceAdded st.defaultZone service t]) ∧
    FirewallD.addService st "" service t none =
      FirewallD.addService st st.defaultZone service t none ∧
    (∃ st3, FirewallD.addPort st "" port protocol t none =
        .ok (st.defaultZone, st3) ∧
      st3.signals = st.signals ++
        [Signal.portAdded st.defaultZone port protocol t]) ∧
    FirewallD.addPort st "" port protocol t none =
      FirewallD.addPort st st.defaultZone port protocol t none := by
  have hres : resolveZone st "" = st.defaultZone := by simp [resolveZone]
  have hresd : resolveZone st st.defaultZone = st.defaultZone := by
    simp [resolveZone, hne]
  have haddsvc : FwZone.add_service st "" service =
      .ok (st.defaultZone,
        { st with services := st.services ++ [(st.defaultZone, service)] }) := by
    simp only [FwZone.add_service, hres]
    rw [if_pos hz, if_neg hs]
  have haddport : FwZone.add_port st "" port protocol =
      .ok (st.defaultZone,
        { st with ports := st.ports ++ [(st.defaultZone, port, protocol)] }) := by
    simp only [FwZone.add_port, hres]
    rw [if_pos hz, if_neg hp]
  have hsvceq : FwZone.add_service st "" service =
      FwZone.add_service st st.defaultZone service := by
    simp only [FwZone.add_service, hres, hresd]
  have hporteq : FwZone.add_port st "" port protocol =
      FwZone.add_port st st.defaultZone port protocol := by
    simp only [FwZone.add_port, hres, hresd]
  refine ⟨?_, ?_, ?_, ?_⟩
  · by_cases ht : t > 0
    · simp only [FirewallD.addService, accessCheckE_none, haddsvc, ht,
        if_true]
      exact ⟨_, rfl, rfl⟩
    · simp only [FirewallD.addService, accessCheckE_none, haddsvc, ht,
        if_false]
      exact ⟨_, rfl, rfl⟩
  · simp only [FirewallD.addService, hsvceq]
  · by_cases ht : t > 0
    · simp only [FirewallD.addPort, accessCheckE_none, haddport, ht,
        if_true]
      exact ⟨_, rfl, rfl⟩
    · simp only [FirewallD.addPort, accessCheckE_none, haddport, ht,
        if_false]
      exact ⟨_, rfl, rfl⟩
  · simp only [FirewallD.addPort, hporteq]

/-- Witness for C8 at the concrete initial state: addService with the empty
zone returns public and signals ServiceAdded for public. -/
theorem C8_empty_zone_default_witness :
    (∃ st2, FirewallD.addService st0 "" "ssh" 0 none = .ok ("public", st2) ∧
      st2.signals = st0.signals ++ [Signal.serviceAdded "public" "ssh" 0]) ∧
    FirewallD.addService st0 "" "ssh" 0 none =
      FirewallD.addService st0 "public" "ssh" 0 none ∧
    (∃ st3, FirewallD.addPort st0 "" "80" "tcp" 0 none =
        .ok ("public", st3) ∧
      st3.signals = st0.signals ++ [Signal.portAdded "public" "80" "tcp" 0]) ∧
    FirewallD.addPort st0 "" "80" "tcp" 0 none =
      FirewallD.addPort st0 "public" "80" "tcp" 0 none :=
  C8_empty_zone_default st0 "ssh" "80" "tcp" 0 (by decide) (by decide)
    (by decide) (by decide)

/-!  C5 — one live timer per key, arming and superseding. -/

/-- Persistent store with the zone public and no entries: after reload the
runtime port set is empty again. -/
def permEmpty : PermConfig where
  zones := ["public"]
  services := []
  ports := []
  richRules := []

/-- st0 over the empty persistent store. -/
def stC5 : FwState := { st0 with perm := permEmpty }

/-- State after the first timed addPort(public, 80, tcp, 5) on stC5. -/
def sC5a : FwState :=
  { stC5 with
    ports := [("public", "80", "tcp")]
    sources := [⟨0, 5, .timedPort "public" "80" "tcp"⟩]
    timeouts := [(("public", .portProto "80" "tcp"), 0)]
    nextTag := 1
    signals := [.portAdded "public" "80" "tcp" 5] }

/-- State after reload (which clears the runtime port but keeps timer state)
followed by a second timed addPort for the same port: two sources are live
for the same key while the timeouts table records only the newer tag. -/
def sC5b : FwState :=
  { stC5 with
    ports := [("public", "80", "tcp")]
    sources := [⟨0, 5, .timedPort "public" "80" "tcp"⟩,
                ⟨1, 5, .timedPort "public" "80" "tcp"⟩]
    timeouts := [(("public", .portProto "80" "tcp"), 1)]
    nextTag := 2
    signals := [.portAdded "public" "80" "tcp" 5, .reloaded,
                .portAdded "public" "80" "tcp" 5] }

/-- C5 counterexample: through addPort, reload, addPort the same key ends
up with two live timers, and the superseded one still fires (it is never
cancelled by the second arming), so neither at-most-one-live-timer-per-key
nor cancel-on-arm holds of the code. -/
theorem C5_counterexample :
    FirewallD.addPort stC5 "public" "80" "tcp" 5 none =
      .ok ("public", sC5a) ∧
    FirewallD.addPort (FirewallD.reload sC5a) "public" "80" "tcp" 5 none =
      .ok ("public", sC5b) ∧
    sC5b.sources = [⟨0, 5, .timedPort "public" "80" "tcp"⟩,
                    ⟨1, 5, .timedPort "public" "80" "tcp"⟩] ∧
    (fireSource (advanceTime sC5b 5) 0).isSome = true ∧
    ((fireSource (advanceTime sC5b 5) 0).getD st0).timeouts = [] ∧
    ((fireSource (advanceTime sC5b 5) 0).getD st0).sources =
      [⟨1, 5, .timedPort "public" "80" "tcp"⟩] := by
  refine ⟨by decide, by decide, by decide, by decide, by decide, by decide⟩

/-- Looking up the key just stored by a dict overwrite yields the new tag,
for a key already present via map-replace. -/
lemma lookupAssoc_mapReplace (l : List ((String × PKey) × Nat))
    (key : String × PKey) (tag : Nat)
    (h : l.any (fun e => decide (e.1 = key)) = true) :
    lookupAssoc (l.map (fun e => if e.1 = key then (key, tag) else e)) key =
      some tag := by
  induction l with
  | nil => simp at h
  | cons e rest ih =>
    by_cases he : e.1 = key
    · simp only [List.map_cons, if_pos he]
      unfold lookupAssoc
      rw [List.find?_cons_of_pos _ (by simp)]
      rfl
    · have hrest : rest.any (fun e => decide (e.1 = key)) = true := by
        simpa [List.any_cons, he] using h
      simp only [List.map_cons, if_neg he]
      unfold lookupAssoc at ih ⊢
      rw [List.find?_cons_of_neg _ (by simp [he])]
      exact ih hrest

/-- Looking up a key right after setAssoc stored a tag for it returns that
tag, whether the key was present before or not. -/
lemma lookupAssoc_setAssoc (l : List ((String × PKey) × Nat))
    (key : String × PKey) (tag : Nat) :
    lookupAssoc (setAssoc l key tag) key = some tag := by
  unfold setAssoc
  by_cases h : l.any (fun e => decide (e.1 = key)) = true
  · rw [if_pos h]
    exact lookupAssoc_mapReplace l key tag h
  · rw [if_neg h]
    apply lookupAssoc_append_self
    intro e he hek
    exact h (List.any_eq_true.mpr ⟨e, he, by simp [hek]⟩)

/-- C5 as amended: arming a timer for a key that already has an armed timer
overwrites the timeout-table entry with the new tag but does not cancel the
superseded source, which stays live and can still fire; what does hold is
that each armed source fires its callback at most once, a fired source
being removed before its callback runs. -/
theorem C5_arm_overwrites_no_cancel (st : FwState) (z : String) (k : PKey)
    (tag : Nat) :
    ((FirewallD.addTimeout st z k tag).sources = st.sources ∧
     lookupAssoc (FirewallD.addTimeout st z k tag).timeouts (z, k) =
       some tag) ∧
    (∀ t st2, fireSource st t = some st2 → fireSource st2 t = none) := by
  refine ⟨⟨rfl, lookupAssoc_setAssoc st.timeouts (z, k) tag⟩, ?_⟩
  intro t st2 hfire
  unfold fireSource at hfire ⊢
  cases hfind : st.sources.find? (fun g => decide (g.tag = t)) with
  | none => rw [hfind] at hfire; cases hfire
  | some g =>
    rw [hfind] at hfire
    dsimp only at hfire
    by_cases hd : g.deadline ≤ st.now
    · rw [if_pos hd] at hfire
      have hst2 : st2 = runTimerCb (glibSourceRemove st t) g.cb :=
        (Option.some.inj hfire).symm
      have hsrc : st2.sources =
          st.sources.filter (fun g2 => decide (g2.tag ≠ t)) := by
        rw [hst2, runTimerCb_sources]
        rfl
      have hnone : st2.sources.find? (fun g2 => decide (g2.tag = t)) =
          none := by
        rw [hsrc, List.find?_eq_none]
        intro x hx
        have hxt := (List.mem_filter.mp hx).2
        simp only [decide_eq_true_eq] at hxt ⊢
        exact hxt
      rw [hnone]
    · rw [if_neg hd] at hfire
      cases hfire

/-- Witness for C5 as amended, at the superseding state of the
counterexample run: the overwrite keeps both sources, records tag 1, and
the fired source 0 cannot fire twice. -/
theorem C5_arm_overwrites_no_cancel_witness :
    ((FirewallD.addTimeout sC5a "public" (.portProto "80" "tcp") 1).sources =
        sC5a.sources ∧
      lookupAssoc
        (FirewallD.addTimeout sC5a "public"
          (.portProto "80" "tcp") 1).timeouts
        ("public", .portProto "80" "tcp") = some 1) ∧
    (∀ t st2, fireSource sC5a t = some st2 → fireSource st2 t = none) :=
  C5_arm_overwrites_no_cancel sC5a "public" (.portProto "80" "tcp") 1

/-!  C6 — lifecycle of a timed port entry. -/

/-- Zone resolution is the identity on a nonempty zone name. -/
lemma resolveZone_ne (st : FwState) (zone : String) (h : zone ≠ "") :
    resolveZone st zone = zone := by
  simp [resolveZone, h]

/-- fireSource is none when no source with the tag is live. -/
lemma fireSource_none_of_find_none (st : FwState) (t : Nat)
    (hfind : st.sources.find? (fun g => decide (g.tag = t)) = none) :
    fireSource st t = none := by
  unfold fireSource
  rw [hfind]

/-- fireSource is none while the deadline lies in the future. -/
lemma fireSource_none_of_early (st : FwState) (g : GSource)
    (hfind : st.sources.find? (fun x => decide (x.tag = g.tag)) = some g)
    (hd : ¬ g.deadline ≤ st.now) :
    fireSource st g.tag = none := by
  unfold fireSource
  rw [hfind]
  dsimp only
  rw [if_neg hd]

/-- fireSource dispatches the callback once the deadline is reached,
removing the source first. -/
lemma fireSource_fires (st : FwState) (g : GSource)
    (hfind : st.sources.find? (fun x => decide (x.tag = g.tag)) = some g)
    (hd : g.deadline ≤ st.now) :
    fireSource st g.tag =
      some (runTimerCb (glibSourceRemove st g.tag) g.cb) := by
  unfold fireSource
  rw [hfind]
  dsimp only
  rw [if_pos hd]

/-- Closed form of disableTimedPort on a state where the timeouts entry
and the port are both present. -/
lemma disableTimedPort_computes (st : FwState)
    (zone port protocol : String) (tag : Nat)
    (hzne : zone ≠ "") (hz : zone ∈ st.zones)
    (hlook : lookupAssoc st.timeouts (zone, .portProto port protocol) =
      some tag)
    (hmem : (zone, port, protocol) ∈ st.ports) :
    FirewallD.disableTimedPort st zone port protocol =
      emit { st with
        timeouts := (st.timeouts.filter (fun e => decide (e.1 ≠ (zone, PKey.portProto port protocol))))
        ports := (st.ports.filter (fun e => decide (e ≠ (zone, port, protocol)))) }
        (.portRemoved zone port protocol) := by
  unfold FirewallD.disableTimedPort
  rw [hlook]
  dsimp only
  have hrm : FwZone.remove_port
      { st with timeouts := (st.timeouts.filter (fun e => decide (e.1 ≠ (zone, PKey.portProto port protocol)))) }
      zone port protocol =
      .ok (zone, { st with
        timeouts := (st.timeouts.filter (fun e => decide (e.1 ≠ (zone, PKey.portProto port protocol))))
        ports := (st.ports.filter (fun e => decide (e ≠ (zone, port, protocol)))) }) := by
    simp only [FwZone.remove_port, resolveZone_ne _ _ hzne]
    rw [if_pos hz, if_pos hmem]
  rw [hrm]

/-- Closed form of removeTimeout on a present key. -/
lemma removeTimeout_some (st : FwState) (z : String) (k : PKey) (tag : Nat)
    (hlook : lookupAssoc st.timeouts (z, k) = some tag) :
    FirewallD.removeTimeout st z k =
      { st with
        sources := (st.sources.filter (fun g => decide (g.tag ≠ tag)))
        timeouts := (st.timeouts.filter (fun e => decide (e.1 ≠ (z, k)))) } := by
  unfold FirewallD.removeTimeout
  rw [hlook]
  rfl

/-- Closed form of removePort with no sender on a state where the port and
its timeouts entry are present: the port is removed, the armed source is
cancelled, the table entry deleted and PortRemoved emitted. -/
lemma removePort_computes (st : FwState) (zone port protocol : String)
    (tag : Nat) (hzne : zone ≠ "") (hz : zone ∈ st.zones)
    (hmem : (zone, port, protocol) ∈ st.ports)
    (hlook : lookupAssoc st.timeouts (zone, .portProto port protocol) =
      some tag) :
    FirewallD.removePort st zone port protocol none =
      .ok (zone, emit { st with
        ports := (st.ports.filter (fun e => decide (e ≠ (zone, port, protocol))))
        sources := (st.sources.filter (fun g => decide (g.tag ≠ tag)))
        timeouts := (st.timeouts.filter (fun e => decide (e.1 ≠ (zone, PKey.portProto port protocol)))) }
        (.portRemoved zone port protocol)) := by
  have hrm : FwZone.remove_port st zone port protocol =
      .ok (zone, { st with ports := (st.ports.filter (fun e => decide (e ≠ (zone, port, protocol)))) }) := by
    simp only [FwZone.remove_port, resolveZone_ne _ _ hzne]
    rw [if_pos hz, if_pos hmem]
  have hrt := removeTimeout_some
    { st with ports := (st.ports.filter (fun e => decide (e ≠ (zone, port, protocol)))) }
    zone (.portProto port protocol) tag hlook
  have hstep : FirewallD.removePort st zone port protocol none =
      .ok (zone, emit (FirewallD.removeTimeout
        { st with ports := (st.ports.filter (fun e => decide (e ≠ (zone, port, protocol)))) }
        zone (.portProto port protocol))
        (.portRemoved zone port protocol)) := by
    simp only [FirewallD.removePort, accessCheckE_none, hrm]
    rfl
  rw [hstep, hrt]

/-- State after addPort(public, 80, tcp, 3) on stC5: the source with tag 0
is armed for deadline 3. -/
def sC6a : FwState :=
  { stC5 with
    ports := [("public", "80", "tcp")]
    sources := [⟨0, 3, .timedPort "public" "80" "tcp"⟩]
    timeouts := [(("public", .portProto "80" "tcp"), 0)]
    nextTag := 1
    signals := [.portAdded "public" "80" "tcp" 3] }

/-- State after reload (which cancels nothing) followed by
addPort(public, 80, tcp, 10): the stale source with deadline 3 is still
live next to the fresh source with deadline 10. -/
def sC6b : FwState :=
  { stC5 with
    ports := [("public", "80", "tcp")]
    sources := [⟨0, 3, .timedPort "public" "80" "tcp"⟩,
                ⟨1, 10, .timedPort "public" "80" "tcp"⟩]
    timeouts := [(("public", .portProto "80" "tcp"), 1)]
    nextTag := 2
    signals := [.portAdded "public" "80" "tcp" 3, .reloaded,
                .portAdded "public" "80" "tcp" 10] }

/-- C6 counterexample to the claim as stated: addPort(T=3), reload,
addPort(T=10) is a reachable run in which the stale timer armed by the
first add fires at time 3, strictly before the second add's deadline 10:
queryPort is already false at t = 3 < T = 10, the timeout-table entry of
the T=10 add is deleted and PortRemoved is emitted — without any timer of
that add expiring and without a manual remove. -/
theorem C6_counterexample :
    FirewallD.addPort stC5 "public" "80" "tcp" 3 none =
      .ok ("public", sC6a) ∧
    FirewallD.addPort (FirewallD.reload sC6a) "public" "80" "tcp" 10 none =
      .ok ("public", sC6b) ∧
    (advanceTime sC6b 3).now < (10 : Int).toNat ∧
    (fireSource (advanceTime sC6b 3) 0).isSome = true ∧
    FirewallD.queryPort ((fireSource (advanceTime sC6b 3) 0).getD st0)
      "public" "80" "tcp" = false ∧
    ((fireSource (advanceTime sC6b 3) 0).getD st0).timeouts = [] ∧
    ((fireSource (advanceTime sC6b 3) 0).getD st0).signals =
      [.portAdded "public" "80" "tcp" 3, .reloaded,
       .portAdded "public" "80" "tcp" 10,
       .portRemoved "public" "80" "tcp"] := by
  refine ⟨by decide, by decide, by decide, by decide, by decide, by decide,
    by decide⟩

/-- C6 as amended: for a timed addPort with positive timeout issued when
the timeout table holds no armed timer for the same key (a stale entry can
survive a reload, which cancels nothing) and the fresh GLib tag is unused,
the port is present and stays present while only time passes; the armed
source cannot fire before its deadline; at expiry it fires the bound
callback exactly once, which removes that port entry, deletes its
timeout-table entry and emits PortRemoved; and a manual removePort before
expiry cancels the armed source, after which the expiry callback can never
run. -/
theorem C6_timed_port_lifecycle (st : FwState)
    (zone port protocol : String) (T : Int)
    (hzne : zone ≠ "") (hz : zone ∈ st.zones)
    (hp : (zone, port, protocol) ∉ st.ports) (hT : T > 0)
    (hfresh : ∀ g ∈ st.sources, g.tag ≠ st.nextTag)
    (hkey : ∀ e ∈ st.timeouts, e.1 ≠ (zone, PKey.portProto port protocol)) :
    ∃ st1, FirewallD.addPort st zone port protocol T none =
        .ok (zone, st1) ∧
      FirewallD.queryPort st1 zone port protocol = true ∧
      (∀ d, FirewallD.queryPort (advanceTime st1 d) zone port protocol =
        true) ∧
      (∀ d, d < T.toNat →
        fireSource (advanceTime st1 d) st.nextTag = none) ∧
      (∀ d, T.toNat ≤ d → ∃ st2,
        fireSource (advanceTime st1 d) st.nextTag = some st2 ∧
        FirewallD.queryPort st2 zone port protocol = false ∧
        st2.ports = st.ports ∧
        lookupAssoc st2.timeouts (zone, .portProto port protocol) = none ∧
        st2.signals = st1.signals ++
          [Signal.portRemoved zone port protocol]) ∧
      (∃ st3, FirewallD.removePort st1 zone port protocol none =
          .ok (zone, st3) ∧
        st3.ports = st.ports ∧
        (∀ d, fireSource (advanceTime st3 d) st.nextTag = none) ∧
        st3.signals = st1.signals ++
          [Signal.portRemoved zone port protocol]) := by
  have hres : resolveZone st zone = zone := resolveZone_ne st zone hzne
  have hset : setAssoc st.timeouts (zone, .portProto port protocol)
      st.nextTag =
      st.timeouts ++ [((zone, .portProto port protocol), st.nextTag)] :=
    setAssoc_absent _ _ _ hkey
  have haddp : FwZone.add_port st zone port protocol =
      .ok (zone, { st with ports := (st.ports ++ [(zone, port, protocol)]) }) := by
    simp only [FwZone.add_port, hres]
    rw [if_pos hz, if_neg hp]
  have hcall : FirewallD.addPort st zone port protocol T none =
      .ok (zone,
        { st with
          ports := (st.ports ++ [(zone, port, protocol)])
          timeouts := (st.timeouts ++ [((zone, PKey.portProto port protocol), st.nextTag)])
          sources := (st.sources ++ [⟨st.nextTag, st.now + T.toNat, .timedPort zone port protocol⟩])
          nextTag := st.nextTag + 1
          signals := (st.signals ++ [.portAdded zone port protocol T]) }) := by
    simp only [FirewallD.addPort, accessCheckE_none, haddp, if_pos hT]
    rw [← hset]
    rfl
  have hfindn : st.sources.find? (fun x => decide (x.tag = st.nextTag)) =
      none := by
    rw [List.find?_eq_none]
    intro g hg
    simpa using hfresh g hg
  have hfindC : (st.sources ++ [(⟨st.nextTag, st.now + T.toNat, .timedPort zone port protocol⟩ : GSource)]).find?
      (fun x => decide (x.tag = st.nextTag)) =
      some ⟨st.nextTag, st.now + T.toNat, .timedPort zone port protocol⟩ := by
    rw [find?_append_of_none _ _ _ hfindn]
    rw [List.find?_cons_of_pos _ (by simp)]
  have hsrcfilter : (st.sources ++ [(⟨st.nextTag, st.now + T.toNat, .timedPort zone port protocol⟩ : GSource)]).filter
      (fun g => decide (g.tag ≠ st.nextTag)) = st.sources := by
    have h1 : st.sources.filter (fun g => decide (g.tag ≠ st.nextTag)) =
        st.sources := by
      rw [List.filter_eq_self]
      intro g hg
      simpa using hfresh g hg
    rw [List.filter_append, h1]
    simp
  have hlookB : lookupAssoc
      (st.timeouts ++ [((zone, PKey.portProto port protocol), st.nextTag)])
      (zone, PKey.portProto port protocol) = some st.nextTag :=
    lookupAssoc_append_self _ _ _ hkey
  have hkf : (st.timeouts ++ [((zone, PKey.portProto port protocol), st.nextTag)]).filter
      (fun e => decide (e.1 ≠ (zone, PKey.portProto port protocol))) =
      st.timeouts :=
    filter_key_append _ _ _ hkey
  have hpf : (st.ports ++ [(zone, port, protocol)]).filter
      (fun e => decide (e ≠ (zone, port, protocol))) = st.ports :=
    filter_ne_append_self _ _ hp
  refine ⟨_, hcall, ?_, ?_, ?_, ?_, ?_⟩
  · simp [FirewallD.queryPort, FwZone.query_port, resolveZone, hzne]
  · intro d
    simp [FirewallD.queryPort, FwZone.query_port, resolveZone, hzne,
      advanceTime]
  · intro d hd
    refine fireSource_none_of_early _
      ⟨st.nextTag, st.now + T.toNat, .timedPort zone port protocol⟩
      hfindC ?_
    show ¬ st.now + T.toNat ≤ st.now + d
    omega
  · intro d hd
    have hfire := fireSource_fires (advanceTime
        { st with
          ports := (st.ports ++ [(zone, port, protocol)])
          timeouts := (st.timeouts ++ [((zone, PKey.portProto port protocol), st.nextTag)])
          sources := (st.sources ++ [⟨st.nextTag, st.now + T.toNat, .timedPort zone port protocol⟩])
          nextTag := st.nextTag + 1
          signals := (st.signals ++ [.portAdded zone port protocol T]) } d)
      ⟨st.nextTag, st.now + T.toNat, .timedPort zone port protocol⟩
      hfindC (show st.now + T.toNat ≤ st.now + d by omega)
    have hglib : glibSourceRemove (advanceTime
        { st with
          ports := (st.ports ++ [(zone, port, protocol)])
          timeouts := (st.timeouts ++ [((zone, PKey.portProto port protocol), st.nextTag)])
          sources := (st.sources ++ [⟨st.nextTag, st.now + T.toNat, .timedPort zone port protocol⟩])
          nextTag := st.nextTag + 1
          signals := (st.signals ++ [.portAdded zone port protocol T]) } d)
        st.nextTag =
        { st with
          ports := (st.ports ++ [(zone, port, protocol)])
          timeouts := (st.timeouts ++ [((zone, PKey.portProto port protocol), st.nextTag)])
          sources := st.sources
          nextTag := st.nextTag + 1
          now := st.now + d
          signals := (st.signals ++ [.portAdded zone port protocol T]) } := by
      unfold glibSourceRemove advanceTime
      dsimp only
      rw [hsrcfilter]
    have hcb : FirewallD.disableTimedPort
        { st with
          ports := (st.ports ++ [(zone, port, protocol)])
          timeouts := (st.timeouts ++ [((zone, PKey.portProto port protocol), st.nextTag)])
          sources := st.sources
          nextTag := st.nextTag + 1
          now := st.now + d
          signals := (st.signals ++ [.portAdded zone port protocol T]) }
        zone port protocol =
        emit { st with
          ports := st.ports
          timeouts := st.timeouts
          sources := st.sources
          nextTag := st.nextTag + 1
          now := st.now + d
          signals := (st.signals ++ [.portAdded zone port protocol T]) }
        (.portRemoved zone port protocol) := by
      rw [disableTimedPort_computes
        { st with
          ports := (st.ports ++ [(zone, port, protocol)])
          timeouts := (st.timeouts ++ [((zone, PKey.portProto port protocol), st.nextTag)])
          sources := st.sources
          nextTag := st.nextTag + 1
          now := st.now + d
          signals := (st.signals ++ [.portAdded zone port protocol T]) }
        zone port protocol st.nextTag hzne hz hlookB (by simp)]
      rw [show ((st.timeouts ++ [((zone, PKey.portProto port protocol), st.nextTag)]).filter (fun e => decide (e.1 ≠ (zone, PKey.portProto port protocol)))) = st.timeouts from hkf]
      rw [show ((st.ports ++ [(zone, port, protocol)]).filter (fun e => decide (e ≠ (zone, port, protocol)))) = st.ports from hpf]
    refine ⟨emit { st with
        ports := st.ports
        timeouts := st.timeouts
        sources := st.sources
        nextTag := st.nextTag + 1
        now := st.now + d
        signals := (st.signals ++ [.portAdded zone port protocol T]) }
      (.portRemoved zone port protocol), ?_, ?_, ?_, ?_, ?_⟩
    · rw [hfire, hglib]
      show some (FirewallD.disableTimedPort _ zone port protocol) = _
      rw [hcb]
    · simp [FirewallD.queryPort, FwZone.query_port, resolveZone, hzne,
        emit, hp]
    · rfl
    · exact (lookupAssoc_none_iff _ _).mpr hkey
    · simp [emit]
  · have hrp := removePort_computes
      { st with
        ports := (st.ports ++ [(zone, port, protocol)])
        timeouts := (st.timeouts ++ [((zone, PKey.portProto port protocol), st.nextTag)])
        sources := (st.sources ++ [⟨st.nextTag, st.now + T.toNat, .timedPort zone port protocol⟩])
        nextTag := st.nextTag + 1
        signals := (st.signals ++ [.portAdded zone port protocol T]) }
      zone port protocol st.nextTag hzne hz (by simp) hlookB
    rw [show ((st.ports ++ [(zone, port, protocol)]).filter (fun e => decide (e ≠ (zone, port, protocol)))) = st.ports from hpf] at hrp
    rw [show ((st.sources ++ [(⟨st.nextTag, st.now + T.toNat, .timedPort zone port protocol⟩ : GSource)]).filter (fun g => decide (g.tag ≠ st.nextTag))) = st.sources from hsrcfilter] at hrp
    rw [show ((st.timeouts ++ [((zone, PKey.portProto port protocol), st.nextTag)]).filter (fun e => decide (e.1 ≠ (zone, PKey.portProto port protocol)))) = st.timeouts from hkf] at hrp
    refine ⟨_, hrp, rfl, ?_, by simp [emit]⟩
    intro d
    exact fireSource_none_of_find_none _ _ hfindn

/-- Witness for C6: timed addPort on the concrete initial state, with the
expiry checked at the deadline and the cancellation path exercised. -/
theorem C6_timed_port_lifecycle_witness :
    ∃ st1, FirewallD.addPort st0 "public" "80" "tcp" 7 none =
        .ok ("public", st1) ∧
      FirewallD.queryPort st1 "public" "80" "tcp" = true ∧
      (∀ d, FirewallD.queryPort (advanceTime st1 d) "public" "80" "tcp" =
        true) ∧
      (∀ d, d < (7 : Int).toNat →
        fireSource (advanceTime st1 d) st0.nextTag = none) ∧
      (∀ d, (7 : Int).toNat ≤ d → ∃ st2,
        fireSource (advanceTime st1 d) st0.nextTag = some st2 ∧
        FirewallD.queryPort st2 "public" "80" "tcp" = false ∧
        st2.ports = st0.ports ∧
        lookupAssoc st2.timeouts ("public", .portProto "80" "tcp") = none ∧
        st2.signals = st1.signals ++
          [Signal.portRemoved "public" "80" "tcp"]) ∧
      (∃ st3, FirewallD.removePort st1 "public" "80" "tcp" none =
          .ok ("public", st3) ∧
        st3.ports = st0.ports ∧
        (∀ d, fireSource (advanceTime st3 d) st0.nextTag = none) ∧
        st3.signals = st1.signals ++
          [Signal.portRemoved "public" "80" "tcp"]) :=
  C6_timed_port_lifecycle st0 "public" "80" "tcp" 7 (by decide) (by decide)
    (by decide) (by decide) (by decide) (by decide)



end Firewalld
